import Mathlib

/-
Verification development for the GramVikas conversational advisory backend
(src/application/app.py).  The Python source is shallowly embedded: the
session store becomes a function from session ids to optional session
records, the farmer database becomes a list of records, and every external
effect (geocoder, weather API, soil API) is supplied as an explicit
outcome value (an oracle), so each request handler is a pure function
from request, oracle and server state to a response and a new state.
-/

/-- Python truthiness of an optional string: None and the empty string are falsy. -/
def pyTruthyStr : Option String → Bool
  | none => false
  | some s => s != ""

/-- Python truthiness of an optional float (here a rational): None and 0.0 are falsy. -/
def pyTruthyQ : Option Rat → Bool
  | none => false
  | some x => x != 0

/-- Boolean prefix test on character lists (helper for the substring test). -/
def listIsPre : List Char → List Char → Bool
  | [], _ => true
  | _ :: _, [] => false
  | a :: as, b :: bs => a == b && listIsPre as bs

/-- Boolean substring-occurrence test on character lists. -/
def listHasInf (sub : List Char) : List Char → Bool
  | [] => listIsPre sub []
  | c :: cs => listIsPre sub (c :: cs) || listHasInf sub cs

/-- The Python membership test on strings: sub occurs contiguously in s. -/
def pyIn (sub s : String) : Bool := listHasInf sub.toList s.toList

/-- One step of the title-casing fold: uppercase an alphabetic character that
does not follow an alphabetic character, lowercase one that does. -/
def pyTitleStep (acc : List Char × Bool) (c : Char) : List Char × Bool :=
  if c.isAlpha then
    (acc.1 ++ [if acc.2 then c.toLower else c.toUpper], true)
  else
    (acc.1 ++ [c], false)

/-- Embedding of the Python str.title() call used on parsed name/address parts. -/
def pyTitle (s : String) : String :=
  String.mk (s.toList.foldl pyTitleStep ([], false)).1

/-- Embedding of the Python str.strip() call: drop whitespace from both ends. -/
def pyStrip (s : String) : String :=
  String.mk
    (((s.toList.dropWhile Char.isWhitespace).reverse.dropWhile
        Char.isWhitespace).reverse)

/-- Embedding of the Python str.lower() call. -/
def pyLower (s : String) : String :=
  String.mk (s.toList.map Char.toLower)

/-- Python str.split(sep) for a one-character separator, on character lists:
keeps empty fields, always returns at least one field. -/
def splitChar (c : Char) : List Char → List (List Char)
  | [] => [[]]
  | a :: as =>
    if a == c then [] :: splitChar c as
    else
      match splitChar c as with
      | [] => [[a]]
      | h :: t => (a :: h) :: t

/-- Python farmer_input.split(",") as used in the step-1 handler. -/
def pySplitComma (s : String) : List String :=
  (splitChar ',' s.toList).map String.mk

/-- Accumulating worker for the whitespace split: acc holds the reversed
current field. -/
def splitWsAux : List Char → List Char → List (List Char)
  | [], acc => if acc = [] then [] else [acc.reverse]
  | c :: cs, acc =>
    if c.isWhitespace then
      if acc = [] then splitWsAux cs [] else acc.reverse :: splitWsAux cs []
    else splitWsAux cs (c :: acc)

/-- Python str.split() with no argument: split on whitespace runs, dropping
empty fields. -/
def pySplitWs (s : String) : List String :=
  (splitWsAux s.toList []).map String.mk

/-- Stand-in for the Python rendering of a (possibly missing) coordinate in an
f-string; the exact digits are irrelevant to every property proved here. -/
def fmt_coord : Option Rat → String
  | some q => toString q
  | none => "None"

-- ## Data model (class Farmer, the in-memory session dict, server state)

/-- Embedding of the Farmer SQLAlchemy model: name/address key, language,
nullable coordinates, nullable last problem summary. -/
structure Farmer where
  fid : Nat
  name : String
  address : String
  language : String
  lat : Option Rat
  lon : Option Rat
  last_problem_summary : Option String
  deriving DecidableEq, Repr

/-- Embedding of one entry of the session_states dict. -/
structure SessionData where
  step : Nat
  name : Option String
  address : Option String
  lang : String
  farmer_id : Option Nat
  problem_text : Option String
  deriving DecidableEq, Repr

/-- The session_states mapping: session id to session record. -/
def Sessions : Type := String → Option SessionData

/-- Write one session record into the mapping. -/
def setSession (m : Sessions) (sid : String) (sd : SessionData) : Sessions :=
  fun s => if s = sid then some sd else m s

/-- The whole mutable state of the server: the in-memory session map and the
persisted farmer table. -/
structure ServerState where
  sessions : Sessions
  farmers : List Farmer

/-- The fresh primary key assigned by the database on insert. -/
def fresh_id (farmers : List Farmer) : Nat :=
  (farmers.map Farmer.fid).foldr max 0 + 1

/-- The default record created by get_session_data for an unseen session id. -/
def default_session : SessionData :=
  { step := 0, name := none, address := none, lang := "hi",
    farmer_id := none, problem_text := none }

/-- get_session_data: retrieve the session state, initializing if necessary. -/
def get_session_data (m : Sessions) (sid : String) : SessionData × Sessions :=
  match m sid with
  | some sd => (sd, m)
  | none => (default_session, setSession m sid default_session)

-- ## External-call outcomes (the oracle)

/-- Outcome of one HTTP fetch: a parsed payload, or a requests exception. -/
inductive HttpResult (α : Type) where
  | ok (a : α)
  | err
  deriving DecidableEq, Repr

/-- Whether the fetch raised. -/
def HttpResult.isErr {α : Type} : HttpResult α → Bool
  | .ok _ => false
  | .err => true

/-- The field values the weather handler extracts from the Open-Meteo JSON
(already rendered as strings, with the N/A defaults applied). -/
structure WeatherPayload where
  temp : String
  wind : String
  rain : String
  deriving DecidableEq, Repr

/-- The field values the soil handler extracts from the SoilGrids JSON
(already rendered, with the N/A defaults and the scaling applied). -/
structure SoilPayload where
  ph : String
  ocd : String
  deriving DecidableEq, Repr

/-- Outcomes of the external calls a single turn can make: the Nominatim
geocoder result and the two fallible provider fetches.  The NDVI provider and
the market-price provider are local mocks in the source and cannot fail. -/
structure Oracle where
  geo : Option (Rat × Rat)
  weather : HttpResult WeatherPayload
  soil : HttpResult SoilPayload

-- ## Provider functions

/-- geocode_address: Nominatim lookup, returning a lat/lon pair or (None, None). -/
def geocode_address (outcome : Option (Rat × Rat)) : Option Rat × Option Rat :=
  match outcome with
  | some (la, lo) => (some la, some lo)
  | none => (none, none)

/-- The localized error string of the weather provider. -/
def weather_error_msg (lang : String) : String :=
  if lang = "hi" then "मौसम की जानकारी नहीं मिल सकी। बाहरी सेवा में त्रुटि।"
  else "Could not retrieve weather information. External service error."

/-- get_current_weather: renders the Open-Meteo payload, or the localized
error string when the fetch raised. -/
def get_current_weather (latitude longitude : Option Rat)
    (res : HttpResult WeatherPayload) (lang : String) : String :=
  match res with
  | .ok d =>
    if lang = "hi" then
      "आपके खेत (" ++ fmt_coord latitude ++ ", " ++ fmt_coord longitude ++
      ") पर आज का तापमान " ++ d.temp ++ " डिग्री सेल्सियस है। हवा की गति " ++ d.wind ++
      " km/h है और वर्षा " ++ d.rain ++ " mm है। सिंचाई की योजना इसी के अनुसार बनाएं।"
    else
      "Current temperature at your farm (" ++ fmt_coord latitude ++ ", " ++
      fmt_coord longitude ++ ") is " ++ d.temp ++ "°C. Wind speed is " ++ d.wind ++
      " km/h, and precipitation is " ++ d.rain ++ " mm. Plan irrigation accordingly."
  | .err => weather_error_msg lang

/-- The localized error string of the soil provider. -/
def soil_error_msg (lang : String) : String :=
  if lang = "hi" then "मिट्टी की जानकारी नहीं मिल सकी। बाहरी सेवा में त्रुटि।"
  else "Could not retrieve soil data. External service error."

/-- get_soil_data: renders the SoilGrids payload, or the localized error
string when the fetch raised.  The coordinates are query parameters only. -/
def get_soil_data (_latitude _longitude : Option Rat)
    (res : HttpResult SoilPayload) (lang : String) : String :=
  match res with
  | .ok d =>
    if lang = "hi" then
      "ISRIC डेटा के अनुसार, आपकी मिट्टी का pH स्तर लगभग **" ++ d.ph ++
      "** है और जैविक कार्बन (Organic Carbon) लगभग **" ++ d.ocd ++
      "** है। यह जानकारी आपकी फसल के लिए बहुत महत्वपूर्ण है।"
    else
      "Based on ISRIC data, your soil pH is approximately **" ++ d.ph ++
      "** and Organic Carbon is approximately **" ++ d.ocd ++
      "**. This information is vital for your crop."
  | .err => soil_error_msg lang

/-- The mock price table of get_market_prices. -/
def market_price_table (c : String) : Option Nat :=
  if c = "wheat" then some 2200
  else if c = "rice" then some 4000
  else if c = "corn" then some 1800
  else none

/-- get_market_prices: local mock of the OGD India market-price source;
never fails. -/
def get_market_prices (crop_name lang : String) : String :=
  match market_price_table (pyLower crop_name) with
  | some price =>
    if lang = "hi" then
      let hindi_crop :=
        if pyLower crop_name = "wheat" then "गेहूं"
        else if pyLower crop_name = "rice" then "धान"
        else if pyLower crop_name = "corn" then "मक्का"
        else crop_name
      "बाजार में आज **" ++ hindi_crop ++ "** का भाव ₹" ++ toString price ++
      " प्रति क्विंटल है (OGD API setup pending)."
    else
      "The current market price for **" ++ crop_name ++ "** is ₹" ++
      toString price ++ " per quintal (OGD API setup pending)."
  | none =>
    if lang = "hi" then "बाजार भाव नहीं मिल सका। (OGD API setup pending)"
    else "Could not retrieve market price. (OGD API setup pending)"

/-- get_ndvi_advice: local mock of the NDVI crop-health source; it performs
no request and never fails. -/
def get_ndvi_advice (_latitude _longitude : Option Rat)
    (crop_name lang : String) : String :=
  if lang = "hi" then
    "सेटेलाइट डेटा (Sentinel-2 NDVI) के अनुसार, आपकी **" ++ crop_name ++
    "** फसल का स्वास्थ्य सामान्य है। **अगले सप्ताह नाइट्रोजन उर्वरक डालें**।"
  else
    "Satellite data (Sentinel-2 NDVI) shows your **" ++ crop_name ++
    "** crop health is normal. **Apply Nitrogen fertilizer next week**."

-- ## Localized fixed messages used by the endpoint handlers

/-- The welcome prompt of start_session. -/
def welcome_msg (lang : String) : String :=
  if lang = "hi" then
    "नमस्ते! मैं आपकी कृषि सलाहकार, \x27कीशा\x27 हूँ। कृपया अपना नाम और गाँव/पता बताएं।"
  else
    "Hello! I am your agricultural advisor, \x27Kisha\x27. Please tell me your name and village/address."

/-- Step-1 reply for a recognized farmer with a stored problem summary. -/
def step1_recap_msg (lang fname summary : String) : String :=
  if lang = "hi" then
    "नमस्ते, " ++ fname ++ "! पिछली बार आपको \x27" ++ summary ++
    "\x27 की समस्या थी। क्या वह हल हो गई है, या आप किसी नई समस्या का सामना कर रहे हैं?"
  else
    "Welcome back, " ++ fname ++ "! Last time you faced an issue with \x27" ++ summary ++
    "\x27. Has that been solved, or are you facing a new problem?"

/-- Step-1 reply for a recognized farmer without a stored problem summary. -/
def step1_welcome_back_msg (lang fname : String) : String :=
  if lang = "hi" then
    "आपका फिर से स्वागत है, " ++ fname ++ "! कृपया अपनी मुख्य कृषि समस्या बताएं।"
  else
    "Welcome back, " ++ fname ++ "! Please tell me your main agricultural problem."

/-- Step-1 reply for a new farmer (the Hindi variant ends with the full-width
stop present in the source). -/
def step1_new_user_msg (lang fname : String) : String :=
  if lang = "hi" then
    "धन्यवाद " ++ fname ++ "! अब कृपया अपनी मुख्य कृषि समस्या बताएं。"
  else
    "Thank you " ++ fname ++ "! Now, please tell me your main agricultural problem."

/-- Step-2 reply when geocoding produced no usable coordinates. -/
def geocode_fail_msg (lang : String) : String :=
  if lang = "hi" then
    "क्षमा करें, हम आपके पते के लिए GPS स्थान नहीं ढूंढ पाए। कृपया अपना पता थोड़ा स्पष्ट करके दें।"
  else
    "Sorry, we could not find the GPS location for your address. Please provide a slightly clearer address."

/-- Step-2 reply when the session references a farmer record that is absent. -/
def internal_error_msg (lang : String) : String :=
  if lang = "hi" then "आंतरिक त्रुटि: किसान रिकॉर्ड नहीं मिला।"
  else "Internal error: Farmer record not found."

/-- Step >= 3 reply when the farmer record is absent or has no usable latitude. -/
def provide_address_msg (lang : String) : String :=
  if lang = "hi" then
    "कृपया अपना पता सही से बताएं ताकि मैं आपके खेत के लिए सटीक जानकारी दे सकूं।"
  else
    "Please provide your address so I can retrieve location-based data."

/-- Follow-up reply for a thanks/closing input. -/
def thanks_msg (lang : String) : String :=
  if lang = "hi" then
    "आपकी मदद करके खुशी हुई। ग्राम विकास का उपयोग करने के लिए धन्यवाद! जल्द ही फिर मिलते हैं।"
  else
    "Happy to help you. Thank you for using Gram Vikas! See you soon."

/-- Follow-up reply for an unrecognized input (capability disclosure). -/
def fallback_msg (lang : String) : String :=
  if lang = "hi" then
    "मैं अभी केवल मौसम, मिट्टी या बाजार भाव की जानकारी दे सकता हूँ। कोई और सवाल?"
  else
    "I can currently provide information on weather, soil, or market prices. Any other questions?"

-- ## Responses

/-- The JSON response of one endpoint call: a normal reply (text, next_step,
HTTP status) or a client-error object with its HTTP status.  The audio field
is produced by the external TTS collaborator and is not modelled. -/
inductive TurnResult where
  | reply (text_response : String) (next_step : Nat) (status : Nat)
  | jsonError (error : String) (status : Nat)
  deriving DecidableEq, Repr

-- ## Endpoint: start_session

/-- start_session: validate the session id, get-or-create the session record,
store the requested language, reset the step to 1 and return the welcome
prompt. -/
def start_session (sid? : Option String) (lang? : Option String)
    (st : ServerState) : TurnResult × ServerState :=
  if !pyTruthyStr sid? then
    (.jsonError "Missing session ID" 400, st)
  else
    let sid := sid?.getD ""
    let lang := lang?.getD "hi"
    let (sd, sessions) := get_session_data st.sessions sid
    let sd := { sd with lang := lang, step := 1 }
    (.reply (welcome_msg lang) 1 200,
     { st with sessions := setSession sessions sid sd })

-- ## Step-1 handler: parse name and address, recognize or create the farmer

/-- The part list the step-1 parser works from: comma split first, whitespace
split when that yields fewer than two parts; each part stripped and
title-cased. -/
def parse_parts (farmer_input : String) : List String :=
  let parts0 := (pySplitComma farmer_input).map (fun p => pyTitle (pyStrip p))
  if parts0.length < 2 then (pySplitWs farmer_input).map (fun p => pyTitle (pyStrip p))
  else parts0

/-- The step-1 name/address extraction: first part is the name (with a
placeholder name for an empty part list), the joined rest is the address
(with a placeholder address when there is no rest). -/
def parse_name_address (farmer_input : String) : String × String :=
  let parts := parse_parts farmer_input
  let name := match parts with | [] => "Kisan" | n :: _ => n
  let address :=
    if parts.length > 1 then " ".intercalate (parts.drop 1) else "Unknown Address"
  (name, address)

/-- The step-1 branch of handle_conversation: parse, look the farmer up by
exact (name, address), branch on recognition and stored summary, insert a new
farmer when there was no match. -/
def handle_step1 (sid farmer_input lang : String) (sd : SessionData)
    (st : ServerState) : TurnResult × ServerState :=
  let name := (parse_name_address farmer_input).1
  let address := (parse_name_address farmer_input).2
  let sd := { sd with name := some name, address := some address }
  match st.farmers.find? (fun f => f.name == name && f.address == address) with
  | some farmer =>
    let sd := { sd with farmer_id := some farmer.fid, step := 3 }
    if pyTruthyStr farmer.last_problem_summary then
      (.reply (step1_recap_msg lang farmer.name (farmer.last_problem_summary.getD "")) sd.step 200,
       { st with sessions := setSession st.sessions sid sd })
    else
      let sd := { sd with step := 2 }
      (.reply (step1_welcome_back_msg lang farmer.name) sd.step 200,
       { st with sessions := setSession st.sessions sid sd })
  | none =>
    let sd := { sd with step := 2 }
    let nid := fresh_id st.farmers
    let farmers := st.farmers ++
      [{ fid := nid, name := name, address := address, language := lang,
         lat := none, lon := none, last_problem_summary := none }]
    let sd := { sd with farmer_id := some nid }
    (.reply (step1_new_user_msg lang name) sd.step 200,
     { sessions := setSession st.sessions sid sd, farmers := farmers })

-- ## Advisory aggregator (get_api_advice)

/-- The localized weather section header of the composite advisory. -/
def weather_header (lang : String) : String :=
  if lang = "hi" then "**मौसम की जानकारी:** " else "**Weather Info:** "

/-- The localized soil section header of the composite advisory. -/
def soil_header (lang : String) : String :=
  if lang = "hi" then "**मिट्टी की सलाह:** " else "**Soil Advice:** "

/-- The localized crop-health section header of the composite advisory. -/
def ndvi_header (lang : String) : String :=
  if lang = "hi" then "**फसल स्वास्थ्य रिपोर्ट:** " else "**Crop Health Report:** "

/-- The text composition of get_api_advice: the three provider results under
their fixed localized headers, after the problem recap and before the fixed
market-price hint.  The crop is the hardcoded default of the source. -/
def get_api_advice_text (lat lon : Rat) (problem_text lang : String)
    (rw : HttpResult WeatherPayload) (rs : HttpResult SoilPayload) : String :=
  let crop_name := "rice"
  let weather_info := get_current_weather (some lat) (some lon) rw lang
  let soil_info := get_soil_data (some lat) (some lon) rs lang
  let ndvi_advice := get_ndvi_advice (some lat) (some lon) crop_name lang
  if lang = "hi" then
    "**समस्या:** " ++ problem_text ++ "\n" ++
    "**मौसम की जानकारी:** " ++ weather_info ++ "\n" ++
    "**मिट्टी की सलाह:** " ++ soil_info ++ "\n" ++
    "**फसल स्वास्थ्य रिपोर्ट:** " ++ ndvi_advice ++ "\n\n" ++
    "बाजार भाव जानने के लिए \x27बाजार भाव\x27 टाइप करें।"
  else
    "**Problem:** " ++ problem_text ++ "\n" ++
    "**Weather Info:** " ++ weather_info ++ "\n" ++
    "**Soil Advice:** " ++ soil_info ++ "\n" ++
    "**Crop Health Report:** " ++ ndvi_advice ++ "\n\n" ++
    "To know market prices, type \x27market price\x27."

/-- get_api_advice: compose the advisory from the three provider calls and
advance the owning session to step 4. -/
def get_api_advice (sid : String) (lat lon : Rat) (problem_text lang : String)
    (o : Oracle) (st : ServerState) : TurnResult × ServerState :=
  let final_advice := get_api_advice_text lat lon problem_text lang o.weather o.soil
  let sd := (st.sessions sid).getD default_session
  let sd := { sd with step := 4 }
  (.reply final_advice 4 200,
   { st with sessions := setSession st.sessions sid sd })

-- ## Step-2 handler: store the problem, geocode, aggregate or revert

/-- The step-2 branch of handle_conversation.  The problem text and the step
marker 3 are written to the session before the farmer lookup; the pending
summary/coordinate assignments on the farmer row are committed only on
geocoding success (the failure paths close the database session without
committing, so the table is unchanged there). -/
def handle_step2 (sid farmer_input lang : String) (o : Oracle)
    (sd : SessionData) (st : ServerState) : TurnResult × ServerState :=
  let problem_text := farmer_input
  let sd := { sd with problem_text := some problem_text, step := 3 }
  let st := { st with sessions := setSession st.sessions sid sd }
  match sd.farmer_id.bind (fun i => st.farmers.find? (fun f => f.fid == i)) with
  | some farmer =>
    let (lat, lon) := geocode_address o.geo
    if pyTruthyQ lat && pyTruthyQ lon then
      -- both coordinates are present and nonzero here
      let la := lat.getD 0
      let lo := lon.getD 0
      let farmers := st.farmers.map (fun f =>
        if f.fid == farmer.fid then
          { f with last_problem_summary := some problem_text,
                   lat := some la, lon := some lo }
        else f)
      get_api_advice sid la lo problem_text lang o { st with farmers := farmers }
    else
      let sd := { sd with step := 1 }
      (.reply (geocode_fail_msg lang) 1 200,
       { st with sessions := setSession st.sessions sid sd })
  | none =>
    -- the source replies next_step 1 here but never rewrites the stored step,
    -- which stays at the value 3 written above
    (.reply (internal_error_msg lang) 1 200, st)

-- ## Follow-up router (get_active_chat_response)

/-- get_active_chat_response: keyword routing of a follow-up input, in source
order market, weather, soil, thanks, fallback; the market branch additionally
requires a truthy stored problem summary.  The session state is read for the
reported next_step but never written. -/
def get_active_chat_response (sid : String) (farmer : Farmer)
    (query_text lang : String) (o : Oracle) (st : ServerState) :
    TurnResult × ServerState :=
  let query := pyLower query_text
  let crop_name := "wheat"
  let response_text :=
    if (pyIn "बाजार" query || pyIn "कीमत" query || pyIn "price" query ||
        pyIn "market" query) && pyTruthyStr farmer.last_problem_summary then
      get_market_prices crop_name lang
    else if pyIn "मौसम" query || pyIn "weather" query || pyIn "तापमान" query ||
        pyIn "temperature" query then
      get_current_weather farmer.lat farmer.lon o.weather lang
    else if pyIn "मिट्टी" query || pyIn "soil" query || pyIn "ph" query then
      get_soil_data farmer.lat farmer.lon o.soil lang
    else if pyIn "धन्यवाद" query || pyIn "thanks" query then
      thanks_msg lang
    else
      fallback_msg lang
  (.reply response_text (((st.sessions sid).getD default_session).step) 200, st)

-- ## Step >= 3 handler

/-- The step >= 3 branch of handle_conversation: re-fetch the farmer; when
the record is absent or its latitude is falsy, reply with the address prompt
and HTTP 400 (the stored step is not rewritten); otherwise route the input.  -/
def handle_step3plus (sid farmer_input lang : String) (o : Oracle)
    (sd : SessionData) (st : ServerState) : TurnResult × ServerState :=
  match sd.farmer_id.bind (fun i => st.farmers.find? (fun f => f.fid == i)) with
  | some farmer =>
    if pyTruthyQ farmer.lat then
      get_active_chat_response sid farmer farmer_input lang o st
    else
      (.reply (provide_address_msg lang) 1 400, st)
  | none =>
    (.reply (provide_address_msg lang) 1 400, st)

-- ## Endpoint: handle_conversation

/-- handle_conversation: validate the request, load or create the session,
dispatch on its step. -/
def handle_conversation (sid? : Option String) (query : String) (o : Oracle)
    (st : ServerState) : TurnResult × ServerState :=
  let farmer_input := pyStrip query
  if !pyTruthyStr sid? || farmer_input == "" then
    (.jsonError "Missing session ID or query" 400, st)
  else
    let sid := sid?.getD ""
    let (sd, sessions) := get_session_data st.sessions sid
    let st := { st with sessions := sessions }
    if sd.step = 1 then handle_step1 sid farmer_input sd.lang sd st
    else if sd.step = 2 then handle_step2 sid farmer_input sd.lang o sd st
    else if sd.step ≥ 3 then handle_step3plus sid farmer_input sd.lang o sd st
    else (.jsonError "Invalid conversation step." 400, st)

-- ## Helper lemmas

theorem setSession_self (m : Sessions) (sid : String) (sd : SessionData) :
    setSession m sid sd sid = some sd := by
  simp [setSession]

theorem handle_conversation_dispatch (sid q : String) (o : Oracle)
    (st : ServerState) (sd : SessionData)
    (hsid : sid ≠ "") (hq : pyStrip q ≠ "") (hs : st.sessions sid = some sd) :
    handle_conversation (some sid) q o st =
      (if sd.step = 1 then handle_step1 sid (pyStrip q) sd.lang sd st
       else if sd.step = 2 then handle_step2 sid (pyStrip q) sd.lang o sd st
       else if 3 ≤ sd.step then handle_step3plus sid (pyStrip q) sd.lang o sd st
       else (.jsonError "Invalid conversation step." 400, st)) := by
  unfold handle_conversation
  have h1 : pyTruthyStr (some sid) = true := by simp [pyTruthyStr, hsid]
  have h2 : (pyStrip q == "") = false := by simp [hq]
  simp [h1, h2, get_session_data, hs]

-- ## Concrete states used in witnesses and counterexamples

/-- A server state with no sessions and no farmers. -/
def empty_state : ServerState := { sessions := fun _ => none, farmers := [] }

/-- An oracle on which every external call fails. -/
def fail_oracle : Oracle := { geo := none, weather := .err, soil := .err }

-- ## C10

/-- C10: a request with a missing session id or an empty (after stripping)
free-text query is rejected by handle_conversation with a client-error JSON
and HTTP 400 and the server state is returned unchanged; start_session
likewise rejects a missing session id without touching the state. -/
theorem C10_input_rejection (st : ServerState) (q : String) (o : Oracle)
    (sid : String) (l : Option String) (hq : pyStrip q = "") :
    handle_conversation none q o st
      = (.jsonError "Missing session ID or query" 400, st)
  ∧ handle_conversation (some sid) q o st
      = (.jsonError "Missing session ID or query" 400, st)
  ∧ start_session none l st = (.jsonError "Missing session ID" 400, st) := by
  refine ⟨rfl, ?_, rfl⟩
  unfold handle_conversation
  simp [hq]

/-- Witness for C10 at a concrete state and a whitespace-only query. -/
theorem C10_input_rejection_witness :
    pyStrip " " = ""
  ∧ (handle_conversation none " " fail_oracle empty_state
      = (.jsonError "Missing session ID or query" 400, empty_state)
   ∧ handle_conversation (some "s1") " " fail_oracle empty_state
      = (.jsonError "Missing session ID or query" 400, empty_state)
   ∧ start_session none none empty_state
      = (.jsonError "Missing session ID" 400, empty_state)) :=
  ⟨rfl, C10_input_rejection empty_state " " fail_oracle "s1" none rfl⟩

-- ## C7

/-- C7: start_session is idempotent per session id: two consecutive calls for
the same id both leave the stored step at 1, never touch the farmer table,
and preserve the identity reference already linked to the session. -/
theorem C7_start_session_idempotent (st : ServerState) (sid : String)
    (l1 l2 : Option String) (hsid : sid ≠ "") :
    ((start_session (some sid) l1 st).2.sessions sid).map SessionData.step
      = some 1
  ∧ (((start_session (some sid) l2
        (start_session (some sid) l1 st).2).2.sessions sid).map
          SessionData.step = some 1)
  ∧ (start_session (some sid) l2
      (start_session (some sid) l1 st).2).2.farmers = st.farmers
  ∧ ((start_session (some sid) l2
        (start_session (some sid) l1 st).2).2.sessions sid).map
          SessionData.farmer_id
      = some (((st.sessions sid).getD default_session).farmer_id) := by
  have h1 : pyTruthyStr (some sid) = true := by simp [pyTruthyStr, hsid]
  cases hcase : st.sessions sid with
  | none =>
    simp [start_session, h1, get_session_data, hcase, setSession]
  | some sd =>
    simp [start_session, h1, get_session_data, hcase, setSession]

/-- Witness for C7: a state whose session s1 is already linked to farmer 5. -/
theorem C7_start_session_idempotent_witness :
    ("s1" : String) ≠ ""
  ∧ (let st : ServerState :=
      { sessions := fun s => if s = "s1" then
          some { step := 4, name := some "Ravi", address := some "Pune",
                 lang := "en", farmer_id := some 5, problem_text := none }
          else none,
        farmers := [] }
     ((start_session (some "s1") (some "en") st).2.sessions "s1").map
        SessionData.step = some 1
   ∧ (((start_session (some "s1") (some "hi")
        (start_session (some "s1") (some "en") st).2).2.sessions "s1").map
          SessionData.step = some 1)
   ∧ (start_session (some "s1") (some "hi")
        (start_session (some "s1") (some "en") st).2).2.farmers = st.farmers
   ∧ ((start_session (some "s1") (some "hi")
        (start_session (some "s1") (some "en") st).2).2.sessions "s1").map
          SessionData.farmer_id
        = some (((st.sessions "s1").getD default_session).farmer_id)) :=
  ⟨by decide, C7_start_session_idempotent _ "s1" (some "en") (some "hi")
    (by decide)⟩

-- ## C9

/-- C9: a follow-up turn at step >= 4 with a valid located farmer is handled
by the router, which leaves the session map (hence the stored step)
unchanged and reports the unchanged step as next_step. -/
theorem C9_router_keeps_step (st : ServerState) (sid q : String) (o : Oracle)
    (sd : SessionData) (farmer : Farmer)
    (hsid : sid ≠ "") (hq : pyStrip q ≠ "")
    (hs : st.sessions sid = some sd) (hstep : 4 ≤ sd.step)
    (hf : sd.farmer_id.bind (fun i => st.farmers.find? (fun f => f.fid == i))
            = some farmer)
    (hlat : pyTruthyQ farmer.lat = true) :
    (handle_conversation (some sid) q o st).2.sessions = st.sessions
  ∧ ((handle_conversation (some sid) q o st).2.sessions sid).map
      SessionData.step = some sd.step
  ∧ (∃ text, (handle_conversation (some sid) q o st).1
      = TurnResult.reply text sd.step 200) := by
  have hd := handle_conversation_dispatch sid q o st sd hsid hq hs
  have h1 : ¬ sd.step = 1 := by omega
  have h2 : ¬ sd.step = 2 := by omega
  have h3 : 3 ≤ sd.step := by omega
  rw [hd, if_neg h1, if_neg h2, if_pos h3]
  unfold handle_step3plus
  rw [hf]
  simp [hlat, get_active_chat_response, hs]

/-- A located farmer used by several witnesses. -/
def located_farmer : Farmer :=
  { fid := 1, name := "Ravi", address := "Pune", language := "en",
    lat := some 18, lon := some 73,
    last_problem_summary := some "my wheat leaves are yellow" }

/-- An active-chat session linked to located_farmer. -/
def active_session : SessionData :=
  { step := 4, name := some "Ravi", address := some "Pune", lang := "en",
    farmer_id := some 1, problem_text := some "my wheat leaves are yellow" }

/-- A server state in active-chat state with a located farmer. -/
def active_state : ServerState :=
  { sessions := fun s => if s = "s1" then some active_session else none,
    farmers := [located_farmer] }

/-- Witness for C9 at a concrete active-chat state. -/
theorem C9_router_keeps_step_witness :
    (("s1" : String) ≠ "" ∧ pyStrip "market price" ≠ ""
     ∧ active_state.sessions "s1" = some active_session
     ∧ 4 ≤ active_session.step
     ∧ active_session.farmer_id.bind
         (fun i => active_state.farmers.find? (fun f => f.fid == i))
         = some located_farmer
     ∧ pyTruthyQ located_farmer.lat = true)
  ∧ ((handle_conversation (some "s1") "market price" fail_oracle
        active_state).2.sessions = active_state.sessions
    ∧ ((handle_conversation (some "s1") "market price" fail_oracle
        active_state).2.sessions "s1").map SessionData.step
        = some active_session.step
    ∧ (∃ text, (handle_conversation (some "s1") "market price" fail_oracle
        active_state).1 = TurnResult.reply text active_session.step 200)) :=
  ⟨⟨by decide, by decide, by simp [active_state], by decide, by decide,
    by decide⟩,
   C9_router_keeps_step active_state "s1" "market price" fail_oracle
     active_session located_farmer (by decide) (by decide)
     (by simp [active_state]) (by decide) (by decide) (by decide)⟩

-- ## C1

/-- A step-2 session whose farmer_id refers to no persisted farmer record. -/
def dangling_session : SessionData :=
  { step := 2, name := some "Ravi", address := some "Pune", lang := "en",
    farmer_id := some 7, problem_text := none }

/-- A server state holding dangling_session and an empty farmer table. -/
def dangling_state : ServerState :=
  { sessions := fun s => if s = "s1" then some dangling_session else none,
    farmers := [] }

/-- A farmer persisted without coordinates. -/
def unlocated_farmer : Farmer :=
  { fid := 1, name := "Ravi", address := "Pune", language := "en",
    lat := none, lon := none, last_problem_summary := none }

/-- An active-chat session linked to unlocated_farmer. -/
def unlocated_session : SessionData :=
  { step := 4, name := some "Ravi", address := some "Pune", lang := "en",
    farmer_id := some 1, problem_text := some "x" }

/-- A server state at step 4 whose farmer has no coordinates. -/
def unlocated_state : ServerState :=
  { sessions := fun s => if s = "s1" then some unlocated_session else none,
    farmers := [unlocated_farmer] }

/-- C1: the missing-identity edge at step 2 and the missing-coordinates edge
at step >= 4 both reply next_step 1 but do NOT set the stored session step to
1: the first leaves it at the value 3 written at the start of the step-2
handler, the second leaves it at its old value 4.  The documented reversion
to a stored step of 1 happens only on the geocoding-failure edge. -/
theorem C1_reversion_edges_keep_stored_step :
    (handle_conversation (some "s1") "leaves yellow" fail_oracle
        dangling_state).1 = TurnResult.reply (internal_error_msg "en") 1 200
  ∧ ((handle_conversation (some "s1") "leaves yellow" fail_oracle
        dangling_state).2.sessions "s1").map SessionData.step = some 3
  ∧ (handle_conversation (some "s1") "weather" fail_oracle
        unlocated_state).1 = TurnResult.reply (provide_address_msg "en") 1 400
  ∧ ((handle_conversation (some "s1") "weather" fail_oracle
        unlocated_state).2.sessions "s1").map SessionData.step = some 4 := by
  refine ⟨by decide, by decide, by decide, by decide⟩

-- ## C4

/-- C4: on a step-2 turn where the geocoder returns no coordinates, the
stored session step reverts to 1, the reply is the address-clarification
prompt, and the farmer table is unchanged (in particular the identity keeps
having no coordinates; the pending summary assignment is discarded because
the database session is closed without commit). -/
theorem C4_geocoding_failure_reverts (st : ServerState) (sid q : String)
    (o : Oracle) (sd : SessionData) (farmer : Farmer)
    (hsid : sid ≠ "") (hq : pyStrip q ≠ "")
    (hs : st.sessions sid = some sd) (hstep : sd.step = 2)
    (hf : sd.farmer_id.bind (fun i => st.farmers.find? (fun f => f.fid == i))
            = some farmer)
    (hgeo : o.geo = none) :
    (handle_conversation (some sid) q o st).1
      = TurnResult.reply (geocode_fail_msg sd.lang) 1 200
  ∧ ((handle_conversation (some sid) q o st).2.sessions sid).map
      SessionData.step = some 1
  ∧ (handle_conversation (some sid) q o st).2.farmers = st.farmers := by
  have hd := handle_conversation_dispatch sid q o st sd hsid hq hs
  have h1 : ¬ sd.step = 1 := by omega
  rw [hd, if_neg h1, if_pos hstep]
  unfold handle_step2
  simp [hf, hgeo, geocode_address, pyTruthyQ, setSession]

/-- A step-2 session correctly linked to farmer 1. -/
def step2_session : SessionData :=
  { step := 2, name := some "Ravi", address := some "Pune", lang := "en",
    farmer_id := some 1, problem_text := none }

/-- A server state at step 2 with an (unlocated) persisted farmer. -/
def step2_state : ServerState :=
  { sessions := fun s => if s = "s1" then some step2_session else none,
    farmers := [unlocated_farmer] }

/-- Witness for C4 at a concrete step-2 state with a failing geocoder. -/
theorem C4_geocoding_failure_reverts_witness :
    (("s1" : String) ≠ "" ∧ pyStrip "leaves yellow" ≠ ""
     ∧ step2_state.sessions "s1" = some step2_session
     ∧ step2_session.step = 2
     ∧ step2_session.farmer_id.bind
         (fun i => step2_state.farmers.find? (fun f => f.fid == i))
         = some unlocated_farmer
     ∧ fail_oracle.geo = none)
  ∧ ((handle_conversation (some "s1") "leaves yellow" fail_oracle
        step2_state).1 = TurnResult.reply (geocode_fail_msg step2_session.lang)
        1 200
    ∧ ((handle_conversation (some "s1") "leaves yellow" fail_oracle
        step2_state).2.sessions "s1").map SessionData.step = some 1
    ∧ (handle_conversation (some "s1") "leaves yellow" fail_oracle
        step2_state).2.farmers = step2_state.farmers) :=
  ⟨⟨by decide, by decide, by simp [step2_state], by decide, by decide, rfl⟩,
   C4_geocoding_failure_reverts step2_state "s1" "leaves yellow" fail_oracle
     step2_session unlocated_farmer (by decide) (by decide)
     (by simp [step2_state]) (by decide) (by decide) rfl⟩

-- ## C8

/-- C8: coordinate success is tested by truthiness, so a zero coordinate is
treated as absent.  At step 2, a geocoder result with latitude 0 or longitude
0 takes the failure branch: stored step 1, clarification reply, farmer table
unchanged.  At step >= 3, a stored latitude of 0 is treated as having no
coordinates: the reply is the address prompt with HTTP 400 and the stored
step is untouched. -/
theorem C8_zero_coordinates_falsy (st : ServerState) (sid q : String)
    (o : Oracle) (sd : SessionData) (farmer : Farmer) (la lo : Rat)
    (hsid : sid ≠ "") (hq : pyStrip q ≠ "")
    (hs : st.sessions sid = some sd)
    (hf : sd.farmer_id.bind (fun i => st.farmers.find? (fun f => f.fid == i))
            = some farmer) :
    (sd.step = 2 → o.geo = some (la, lo) → la = 0 ∨ lo = 0 →
       (handle_conversation (some sid) q o st).1
         = TurnResult.reply (geocode_fail_msg sd.lang) 1 200
       ∧ ((handle_conversation (some sid) q o st).2.sessions sid).map
           SessionData.step = some 1
       ∧ (handle_conversation (some sid) q o st).2.farmers = st.farmers)
  ∧ (3 ≤ sd.step → farmer.lat = some 0 →
       (handle_conversation (some sid) q o st).1
         = TurnResult.reply (provide_address_msg sd.lang) 1 400
       ∧ ((handle_conversation (some sid) q o st).2.sessions sid).map
           SessionData.step = some sd.step) := by
  constructor
  · intro hstep hgeo hz
    have hd := handle_conversation_dispatch sid q o st sd hsid hq hs
    have h1 : ¬ sd.step = 1 := by omega
    rw [hd, if_neg h1, if_pos hstep]
    unfold handle_step2
    have hzero : (pyTruthyQ (some la) && pyTruthyQ (some lo)) = false := by
      rcases hz with hz | hz <;> simp [pyTruthyQ, hz]
    simp [hf, hgeo, geocode_address, hzero, setSession]
  · intro hstep hlat
    have hd := handle_conversation_dispatch sid q o st sd hsid hq hs
    have h1 : ¬ sd.step = 1 := by omega
    have h2 : ¬ sd.step = 2 := by omega
    rw [hd, if_neg h1, if_neg h2, if_pos hstep]
    unfold handle_step3plus
    rw [hf]
    simp [hlat, pyTruthyQ, hs]

/-- An oracle whose geocoder reports a zero latitude. -/
def zero_lat_oracle : Oracle :=
  { geo := some (0, 73), weather := .err, soil := .err }

/-- A farmer persisted with zero coordinates. -/
def zero_lat_farmer : Farmer :=
  { fid := 1, name := "Ravi", address := "Pune", language := "en",
    lat := some 0, lon := some 0, last_problem_summary := some "x" }

/-- An active-chat session linked to zero_lat_farmer. -/
def zero_lat_session : SessionData :=
  { step := 4, name := some "Ravi", address := some "Pune", lang := "en",
    farmer_id := some 1, problem_text := some "x" }

/-- A server state at step 4 whose farmer has latitude 0. -/
def zero_lat_state : ServerState :=
  { sessions := fun s => if s = "s1" then some zero_lat_session else none,
    farmers := [zero_lat_farmer] }

/-- Witness for C8 at concrete states: a zero-latitude geocoder result at
step 2 and a stored zero latitude at step 4. -/
theorem C8_zero_coordinates_falsy_witness :
    ((handle_conversation (some "s1") "leaves yellow" zero_lat_oracle
        step2_state).1 = TurnResult.reply (geocode_fail_msg step2_session.lang)
        1 200
    ∧ ((handle_conversation (some "s1") "leaves yellow" zero_lat_oracle
        step2_state).2.sessions "s1").map SessionData.step = some 1
    ∧ (handle_conversation (some "s1") "leaves yellow" zero_lat_oracle
        step2_state).2.farmers = step2_state.farmers)
  ∧ ((handle_conversation (some "s1") "weather" fail_oracle
        zero_lat_state).1
          = TurnResult.reply (provide_address_msg zero_lat_session.lang) 1 400
    ∧ ((handle_conversation (some "s1") "weather" fail_oracle
        zero_lat_state).2.sessions "s1").map SessionData.step
          = some zero_lat_session.step) :=
  ⟨(C8_zero_coordinates_falsy step2_state "s1" "leaves yellow" zero_lat_oracle
      step2_session unlocated_farmer 0 73 (by decide) (by decide)
      (by simp [step2_state]) (by decide)).1 (by decide) rfl (Or.inl rfl),
   (C8_zero_coordinates_falsy zero_lat_state "s1" "weather" fail_oracle
      zero_lat_session zero_lat_farmer 0 0 (by decide) (by decide)
      (by simp [zero_lat_state]) (by decide)).2 (by decide) (by decide)⟩

-- ## C2

/-- The localized problem section header of the composite advisory. -/
def problem_header (lang : String) : String :=
  if lang = "hi" then "**समस्या:** " else "**Problem:** "

/-- The localized fixed market-price hint closing the composite advisory. -/
def market_hint (lang : String) : String :=
  if lang = "hi" then "बाजार भाव जानने के लिए \x27बाजार भाव\x27 टाइप करें।"
  else "To know market prices, type \x27market price\x27."

/-- Substring containment, used to state that a section appears verbatim. -/
def contains_section (whole sec : String) : Prop :=
  ∃ pre post, whole = pre ++ sec ++ post

theorem get_api_advice_text_eq (lat lon : Rat) (problem lang : String)
    (rw : HttpResult WeatherPayload) (rs : HttpResult SoilPayload) :
    get_api_advice_text lat lon problem lang rw rs =
      problem_header lang ++ problem ++ "\n" ++
      weather_header lang ++
      get_current_weather (some lat) (some lon) rw lang ++ "\n" ++
      soil_header lang ++
      get_soil_data (some lat) (some lon) rs lang ++ "\n" ++
      ndvi_header lang ++
      get_ndvi_advice (some lat) (some lon) "rice" lang ++ "\n\n" ++
      market_hint lang := by
  by_cases hl : lang = "hi"
  · subst hl
    simp only [get_api_advice_text, problem_header, weather_header,
      soil_header, ndvi_header, market_hint, reduceIte, String.append_assoc]
  · simp only [get_api_advice_text, problem_header, weather_header,
      soil_header, ndvi_header, market_hint, if_neg hl, String.append_assoc]

/-- C2: in the composite advisory each of the weather, soil and crop-health
sections appears verbatim under its fixed localized header whatever the
provider outcomes; a failed provider contributes exactly its localized error
snippet; and the aggregation itself always returns a normal reply advancing
the session to step 4, so one provider failure (here: exactly one of the two
fallible providers fails, the vegetation mock being infallible in the
source) never makes the aggregation fail. -/
theorem C2_provider_failure_isolation (lat lon : Rat) (problem lang : String)
    (o : Oracle)
    (h : (o.weather.isErr = true ∧ o.soil.isErr = false)
       ∨ (o.weather.isErr = false ∧ o.soil.isErr = true)) :
    contains_section (get_api_advice_text lat lon problem lang o.weather o.soil)
      (weather_header lang ++ get_current_weather (some lat) (some lon) o.weather lang)
  ∧ contains_section (get_api_advice_text lat lon problem lang o.weather o.soil)
      (soil_header lang ++ get_soil_data (some lat) (some lon) o.soil lang)
  ∧ contains_section (get_api_advice_text lat lon problem lang o.weather o.soil)
      (ndvi_header lang ++ get_ndvi_advice (some lat) (some lon) "rice" lang)
  ∧ (o.weather.isErr = true →
      get_current_weather (some lat) (some lon) o.weather lang
        = weather_error_msg lang)
  ∧ (o.soil.isErr = true →
      get_soil_data (some lat) (some lon) o.soil lang = soil_error_msg lang)
  ∧ (∀ sid st, (get_api_advice sid lat lon problem lang o st).1
      = TurnResult.reply
          (get_api_advice_text lat lon problem lang o.weather o.soil) 4 200) := by
  refine ⟨?_, ?_, ?_, ?_, ?_, ?_⟩
  · exact ⟨problem_header lang ++ problem ++ "\n",
      "\n" ++ soil_header lang ++ get_soil_data (some lat) (some lon) o.soil lang ++
      "\n" ++ ndvi_header lang ++ get_ndvi_advice (some lat) (some lon) "rice" lang ++
      "\n\n" ++ market_hint lang,
      by rw [get_api_advice_text_eq]; simp only [String.append_assoc]⟩
  · exact ⟨problem_header lang ++ problem ++ "\n" ++
      weather_header lang ++ get_current_weather (some lat) (some lon) o.weather lang ++ "\n",
      "\n" ++ ndvi_header lang ++ get_ndvi_advice (some lat) (some lon) "rice" lang ++
      "\n\n" ++ market_hint lang,
      by rw [get_api_advice_text_eq]; simp only [String.append_assoc]⟩
  · exact ⟨problem_header lang ++ problem ++ "\n" ++
      weather_header lang ++ get_current_weather (some lat) (some lon) o.weather lang ++ "\n" ++
      soil_header lang ++ get_soil_data (some lat) (some lon) o.soil lang ++ "\n",
      "\n\n" ++ market_hint lang,
      by rw [get_api_advice_text_eq]; simp only [String.append_assoc]⟩
  · intro hw
    cases ho : o.weather with
    | ok d => rw [ho] at hw; simp [HttpResult.isErr] at hw
    | err => simp [get_current_weather]
  · intro hsoil
    cases ho : o.soil with
    | ok d => rw [ho] at hsoil; simp [HttpResult.isErr] at hsoil
    | err => simp [get_soil_data]
  · intro sid st
    rfl

/-- An oracle where only the soil fetch fails. -/
def soil_err_oracle : Oracle :=
  { geo := some (18, 73), weather := .ok { temp := "25", wind := "10", rain := "0" },
    soil := .err }

/-- Witness for C2: soil fails, weather and crop-health still appear verbatim
and the soil slot carries the localized error snippet. -/
theorem C2_provider_failure_isolation_witness :
    (soil_err_oracle.weather.isErr = false ∧ soil_err_oracle.soil.isErr = true)
  ∧ contains_section
      (get_api_advice_text 18 73 "p" "en" soil_err_oracle.weather soil_err_oracle.soil)
      (weather_header "en" ++
        get_current_weather (some 18) (some 73) soil_err_oracle.weather "en")
  ∧ contains_section
      (get_api_advice_text 18 73 "p" "en" soil_err_oracle.weather soil_err_oracle.soil)
      (soil_header "en" ++
        get_soil_data (some 18) (some 73) soil_err_oracle.soil "en")
  ∧ contains_section
      (get_api_advice_text 18 73 "p" "en" soil_err_oracle.weather soil_err_oracle.soil)
      (ndvi_header "en" ++
        get_ndvi_advice (some 18) (some 73) "rice" "en")
  ∧ get_soil_data (some 18) (some 73) soil_err_oracle.soil "en"
      = soil_error_msg "en"
  ∧ (get_api_advice "s1" 18 73 "p" "en" soil_err_oracle empty_state).1
      = TurnResult.reply
          (get_api_advice_text 18 73 "p" "en" soil_err_oracle.weather
            soil_err_oracle.soil) 4 200 :=
  ⟨⟨rfl, rfl⟩,
   (C2_provider_failure_isolation 18 73 "p" "en" soil_err_oracle
      (Or.inr ⟨rfl, rfl⟩)).1,
   (C2_provider_failure_isolation 18 73 "p" "en" soil_err_oracle
      (Or.inr ⟨rfl, rfl⟩)).2.1,
   (C2_provider_failure_isolation 18 73 "p" "en" soil_err_oracle
      (Or.inr ⟨rfl, rfl⟩)).2.2.1,
   (C2_provider_failure_isolation 18 73 "p" "en" soil_err_oracle
      (Or.inr ⟨rfl, rfl⟩)).2.2.2.2.1 rfl,
   (C2_provider_failure_isolation 18 73 "p" "en" soil_err_oracle
      (Or.inr ⟨rfl, rfl⟩)).2.2.2.2.2 "s1" empty_state⟩

-- ## C3

/-- Decision list of the follow-up router as the specification words it
(priority order market, weather, soil, thanks, fallback; first match wins;
case-insensitive substring matching; the market branch requires an active
advisory context), with one amendment: the context test is truthiness of the
stored summary (non-null AND non-empty), which is what the source tests. -/
def router_spec_text (farmer : Farmer) (query_text lang : String)
    (o : Oracle) : String :=
  let q := pyLower query_text
  if (pyIn "बाजार" q || pyIn "कीमत" q || pyIn "price" q || pyIn "market" q)
      && pyTruthyStr farmer.last_problem_summary then
    get_market_prices "wheat" lang
  else if pyIn "मौसम" q || pyIn "weather" q || pyIn "तापमान" q ||
      pyIn "temperature" q then
    get_current_weather farmer.lat farmer.lon o.weather lang
  else if pyIn "मिट्टी" q || pyIn "soil" q || pyIn "ph" q then
    get_soil_data farmer.lat farmer.lon o.soil lang
  else if pyIn "धन्यवाद" q || pyIn "thanks" q then
    thanks_msg lang
  else
    fallback_msg lang

/-- C3 (amended): the router text is exactly the priority-ordered decision
list of the spec with the market branch gated on a truthy (non-null,
non-empty) summary, and consequently an input carrying both a market and a
weather keyword goes to market when the summary is truthy and to weather
when it is falsy. -/
theorem C3_router_priority (sid : String) (farmer : Farmer) (q lang : String)
    (o : Oracle) (st : ServerState) :
    (get_active_chat_response sid farmer q lang o st).1
      = TurnResult.reply (router_spec_text farmer q lang o)
          (((st.sessions sid).getD default_session).step) 200
  ∧ (pyIn "price" (pyLower q) = true → pyIn "weather" (pyLower q) = true →
      (pyTruthyStr farmer.last_problem_summary = true →
        router_spec_text farmer q lang o = get_market_prices "wheat" lang)
      ∧ (pyTruthyStr farmer.last_problem_summary = false →
        router_spec_text farmer q lang o
          = get_current_weather farmer.lat farmer.lon o.weather lang)) := by
  refine ⟨rfl, ?_⟩
  intro hp hw
  constructor
  · intro hsum
    simp [router_spec_text, hp, hsum]
  · intro hsum
    simp [router_spec_text, hp, hw, hsum]

/-- A farmer whose stored summary is non-null but empty. -/
def empty_summary_farmer : Farmer :=
  { fid := 1, name := "Ravi", address := "Pune", language := "en",
    lat := some 18, lon := some 73, last_problem_summary := some "" }

/-- An active-chat session linked to empty_summary_farmer. -/
def empty_summary_session : SessionData :=
  { step := 4, name := some "Ravi", address := some "Pune", lang := "en",
    farmer_id := some 1, problem_text := some "x" }

/-- A server state at step 4 whose farmer has a non-null empty summary. -/
def empty_summary_state : ServerState :=
  { sessions := fun s => if s = "s1" then some empty_summary_session else none,
    farmers := [empty_summary_farmer] }

/-- C3 counterexample: with a non-null (but empty) stored summary, an input
containing both a market and a weather keyword routes to weather, not to
market, because the source gates the market branch on truthiness rather than
on non-nullness. -/
theorem C3_router_priority_counterexample :
    empty_summary_farmer.last_problem_summary ≠ none
  ∧ pyIn "price" (pyLower "price and weather") = true
  ∧ pyIn "weather" (pyLower "price and weather") = true
  ∧ (handle_conversation (some "s1") "price and weather" soil_err_oracle
        empty_summary_state).1
      = TurnResult.reply
          (get_current_weather (some 18) (some 73) soil_err_oracle.weather "en")
          4 200
  ∧ get_current_weather (some 18) (some 73) soil_err_oracle.weather "en"
      ≠ get_market_prices "wheat" "en" :=
  ⟨by decide, by decide, by decide, by decide, by decide⟩

/-- Witness for C3 at concrete farmers: a truthy summary routes the combined
input to market, a falsy one to weather. -/
theorem C3_router_priority_witness :
    (get_active_chat_response "s1" located_farmer "price and weather" "en"
        soil_err_oracle active_state).1
      = TurnResult.reply
          (router_spec_text located_farmer "price and weather" "en"
            soil_err_oracle)
          (((active_state.sessions "s1").getD default_session).step) 200
  ∧ router_spec_text located_farmer "price and weather" "en" soil_err_oracle
      = get_market_prices "wheat" "en"
  ∧ router_spec_text empty_summary_farmer "price and weather" "en"
      soil_err_oracle
      = get_current_weather empty_summary_farmer.lat empty_summary_farmer.lon
          soil_err_oracle.weather "en" :=
  ⟨(C3_router_priority "s1" located_farmer "price and weather" "en"
      soil_err_oracle active_state).1,
   ((C3_router_priority "s1" located_farmer "price and weather" "en"
      soil_err_oracle active_state).2 (by decide) (by decide)).1 (by decide),
   ((C3_router_priority "s1" empty_summary_farmer "price and weather" "en"
      soil_err_oracle active_state).2 (by decide) (by decide)).2 (by decide)⟩

-- ## C5

/-- C5 (amended): on a step-1 turn the handler looks the farmer up by the
exact parsed (name, address) pair and branches three ways, with the recap
branch gated on a truthy (non-null, non-empty) summary rather than a merely
non-null one: a match with truthy summary goes to step 3 with the recap
reply; a match with null or empty summary goes to step 2 greeting the
returning user; no match inserts a fresh farmer record and goes to step 2;
and in every branch a farmer with the parsed name and address is persisted
when the handler returns. -/
theorem C5_step1_recognition (st : ServerState) (sid q : String) (o : Oracle)
    (sd : SessionData)
    (hsid : sid ≠ "") (hq : pyStrip q ≠ "")
    (hs : st.sessions sid = some sd) (hstep : sd.step = 1) :
    (∀ farmer, st.farmers.find?
        (fun f => f.name == (parse_name_address (pyStrip q)).1
               && f.address == (parse_name_address (pyStrip q)).2)
        = some farmer →
       (handle_conversation (some sid) q o st).2.farmers = st.farmers
       ∧ ((handle_conversation (some sid) q o st).2.sessions sid).map
           SessionData.farmer_id = some (some farmer.fid)
       ∧ (∃ f, f ∈ (handle_conversation (some sid) q o st).2.farmers
            ∧ f.name = (parse_name_address (pyStrip q)).1
            ∧ f.address = (parse_name_address (pyStrip q)).2)
       ∧ (pyTruthyStr farmer.last_problem_summary = true →
            ((handle_conversation (some sid) q o st).2.sessions sid).map
              SessionData.step = some 3
            ∧ (handle_conversation (some sid) q o st).1
                = TurnResult.reply
                    (step1_recap_msg sd.lang farmer.name
                      (farmer.last_problem_summary.getD "")) 3 200)
       ∧ (pyTruthyStr farmer.last_problem_summary = false →
            ((handle_conversation (some sid) q o st).2.sessions sid).map
              SessionData.step = some 2
            ∧ (handle_conversation (some sid) q o st).1
                = TurnResult.reply
                    (step1_welcome_back_msg sd.lang farmer.name) 2 200))
  ∧ (st.farmers.find?
        (fun f => f.name == (parse_name_address (pyStrip q)).1
               && f.address == (parse_name_address (pyStrip q)).2) = none →
       (handle_conversation (some sid) q o st).2.farmers
         = st.farmers ++
           [{ fid := fresh_id st.farmers,
              name := (parse_name_address (pyStrip q)).1,
              address := (parse_name_address (pyStrip q)).2,
              language := sd.lang, lat := none, lon := none,
              last_problem_summary := none }]
       ∧ ((handle_conversation (some sid) q o st).2.sessions sid).map
           SessionData.step = some 2
       ∧ ((handle_conversation (some sid) q o st).2.sessions sid).map
           SessionData.farmer_id = some (some (fresh_id st.farmers))
       ∧ (∃ f, f ∈ (handle_conversation (some sid) q o st).2.farmers
            ∧ f.name = (parse_name_address (pyStrip q)).1
            ∧ f.address = (parse_name_address (pyStrip q)).2)
       ∧ (handle_conversation (some sid) q o st).1
           = TurnResult.reply
               (step1_new_user_msg sd.lang (parse_name_address (pyStrip q)).1)
               2 200) := by
  have hd := handle_conversation_dispatch sid q o st sd hsid hq hs
  rw [hd]
  simp only [hstep, reduceIte]
  constructor
  · intro farmer hfind
    have hmem := List.mem_of_find?_eq_some hfind
    have hpred := List.find?_some hfind
    have hname : farmer.name = (parse_name_address (pyStrip q)).1 := by
      have := (Bool.and_eq_true _ _).mp hpred
      exact eq_of_beq this.1
    have haddr : farmer.address = (parse_name_address (pyStrip q)).2 := by
      have := (Bool.and_eq_true _ _).mp hpred
      exact eq_of_beq this.2
    by_cases hsum : pyTruthyStr farmer.last_problem_summary = true
    · refine ⟨?_, ?_, ⟨farmer, ?_, hname, haddr⟩, ?_, ?_⟩ <;>
        simp [handle_step1, hfind, hsum, setSession, hmem]
    · have hsum2 : pyTruthyStr farmer.last_problem_summary = false := by
        simpa using hsum
      refine ⟨?_, ?_, ⟨farmer, ?_, hname, haddr⟩, ?_, ?_⟩ <;>
        simp [handle_step1, hfind, hsum2, setSession, hmem]
  · intro hfind
    refine ⟨?_, ?_, ?_, ?_, ?_⟩
    · simp [handle_step1, hfind]
    · simp [handle_step1, hfind, setSession]
    · simp [handle_step1, hfind, setSession]
    · refine ⟨Farmer.mk (fresh_id st.farmers) (parse_name_address (pyStrip q)).1
        (parse_name_address (pyStrip q)).2 sd.lang none none none, ?_, rfl, rfl⟩
      simp [handle_step1, hfind]
    · simp only [handle_step1, hfind]

/-- A fresh step-1 session. -/
def step1_session : SessionData :=
  { step := 1, name := none, address := none, lang := "en",
    farmer_id := none, problem_text := none }

/-- A step-1 state with no persisted farmers. -/
def step1_state : ServerState :=
  { sessions := fun s => if s = "s1" then some step1_session else none,
    farmers := [] }

/-- A step-1 state whose table holds the farmer with a non-null empty
summary. -/
def step1_state_empty_summary : ServerState :=
  { sessions := fun s => if s = "s1" then some step1_session else none,
    farmers := [empty_summary_farmer] }

/-- A step-1 state whose table holds the located farmer with a non-empty
summary. -/
def step1_state_known : ServerState :=
  { sessions := fun s => if s = "s1" then some step1_session else none,
    farmers := [located_farmer] }

/-- C5 counterexample: a recognized farmer whose stored summary is non-null
but empty is NOT sent to step 3 with a recap; the session moves to step 2
with the returning-user greeting, because the source gates the recap branch
on truthiness rather than on non-nullness. -/
theorem C5_step1_recognition_counterexample :
    empty_summary_farmer.last_problem_summary ≠ none
  ∧ step1_state_empty_summary.farmers.find?
      (fun f => f.name == "Ravi" && f.address == "Pune")
      = some empty_summary_farmer
  ∧ parse_name_address (pyStrip "Ravi, Pune") = ("Ravi", "Pune")
  ∧ ((handle_conversation (some "s1") "Ravi, Pune" fail_oracle
        step1_state_empty_summary).2.sessions "s1").map SessionData.step
      = some 2
  ∧ (handle_conversation (some "s1") "Ravi, Pune" fail_oracle
        step1_state_empty_summary).1
      = TurnResult.reply (step1_welcome_back_msg "en" "Ravi") 2 200 :=
  ⟨by decide, by decide, by decide, by decide, by decide⟩

/-- Witness for C5: the recognized-with-truthy-summary branch and the
new-user branch at concrete states. -/
theorem C5_step1_recognition_witness :
    ((handle_conversation (some "s1") "Ravi, Pune" fail_oracle
        step1_state_known).2.farmers = step1_state_known.farmers
    ∧ ((handle_conversation (some "s1") "Ravi, Pune" fail_oracle
        step1_state_known).2.sessions "s1").map SessionData.step = some 3
    ∧ (handle_conversation (some "s1") "Ravi, Pune" fail_oracle
        step1_state_known).1
        = TurnResult.reply
            (step1_recap_msg "en" "Ravi" "my wheat leaves are yellow") 3 200)
  ∧ ((handle_conversation (some "s1") "Ravi, Pune" fail_oracle
        step1_state).2.farmers
        = step1_state.farmers ++
          [{ fid := fresh_id step1_state.farmers, name := "Ravi",
             address := "Pune", language := "en", lat := none, lon := none,
             last_problem_summary := none }]
    ∧ ((handle_conversation (some "s1") "Ravi, Pune" fail_oracle
        step1_state).2.sessions "s1").map SessionData.step = some 2) := by
  have hA := (C5_step1_recognition step1_state_known "s1" "Ravi, Pune"
    fail_oracle step1_session (by decide) (by decide)
    (by simp [step1_state_known]) rfl).1 located_farmer (by decide)
  have hB := (C5_step1_recognition step1_state "s1" "Ravi, Pune"
    fail_oracle step1_session (by decide) (by decide)
    (by simp [step1_state]) rfl).2 (by decide)
  exact ⟨⟨hA.1, (hA.2.2.2.1 (by decide)).1, (hA.2.2.2.1 (by decide)).2⟩,
         ⟨hB.1, hB.2.1⟩⟩

-- ## C6

theorem splitChar_ne_nil (c : Char) (l : List Char) : splitChar c l ≠ [] := by
  induction l with
  | nil => simp [splitChar]
  | cons a as ih =>
    by_cases h : a == c
    · simp [splitChar, h]
    · simp only [splitChar, h, Bool.false_eq_true, if_false]
      rcases hr : splitChar c as with _ | ⟨x, xs⟩ <;> simp

theorem splitChar_two_le_length_iff (c : Char) (l : List Char) :
    2 ≤ (splitChar c l).length ↔ c ∈ l := by
  induction l with
  | nil => simp [splitChar]
  | cons a as ih =>
    by_cases h : a == c
    · have ha : a = c := eq_of_beq h
      have h1 : splitChar c as ≠ [] := splitChar_ne_nil c as
      have h2 : 1 ≤ (splitChar c as).length := by
        have := List.length_pos.mpr h1
        omega
      simp only [splitChar, h, if_true, List.length_cons, List.mem_cons]
      constructor
      · intro _; exact Or.inl ha.symm
      · intro _; omega
    · have ha : ¬ a = c := fun hac => h (by simp [hac])
      have hsplit : splitChar c (a :: as)
          = match splitChar c as with
            | [] => [[a]]
            | h :: t => (a :: h) :: t := by
        simp [splitChar, h]
      rcases hr : splitChar c as with _ | ⟨x, xs⟩
      · exact absurd hr (splitChar_ne_nil c as)
      · rw [hr] at hsplit
        rw [hsplit]
        have ih2 : 2 ≤ (x :: xs).length ↔ c ∈ as := by rw [← hr]; exact ih
        simp only [List.length_cons] at ih2 ⊢
        rw [List.mem_cons]
        constructor
        · intro hle; exact Or.inr (ih2.mp hle)
        · intro hm
          rcases hm with hm | hm
          · exact absurd hm.symm ha
          · exact ih2.mpr hm

/-- C6: a non-empty step-1 input is always parsed without failing: the turn
returns a normal reply and the stored step advances out of 1 (to 2 or 3);
the part list comes from the comma split when the input holds a comma and
from the whitespace split otherwise; and the first part becomes the name
while the joined rest becomes the address, with the literal placeholder when
there is no rest. -/
theorem C6_parsing_never_fails (st : ServerState) (sid q : String)
    (o : Oracle) (sd : SessionData)
    (hsid : sid ≠ "") (hq : pyStrip q ≠ "")
    (hs : st.sessions sid = some sd) (hstep : sd.step = 1) :
    (∃ text ns, (handle_conversation (some sid) q o st).1
        = TurnResult.reply text ns 200)
  ∧ (((handle_conversation (some sid) q o st).2.sessions sid).map
        SessionData.step = some 2
     ∨ ((handle_conversation (some sid) q o st).2.sessions sid).map
        SessionData.step = some 3)
  ∧ ((',' : Char) ∈ (pyStrip q).toList →
        parse_parts (pyStrip q)
          = (pySplitComma (pyStrip q)).map (fun p => pyTitle (pyStrip p)))
  ∧ ((',' : Char) ∉ (pyStrip q).toList →
        parse_parts (pyStrip q)
          = (pySplitWs (pyStrip q)).map (fun p => pyTitle (pyStrip p)))
  ∧ (∀ n rest, parse_parts (pyStrip q) = n :: rest →
        parse_name_address (pyStrip q)
          = (n, if rest = [] then "Unknown Address"
                else " ".intercalate rest)) := by
  have hd := handle_conversation_dispatch sid q o st sd hsid hq hs
  refine ⟨?_, ?_, ?_, ?_, ?_⟩
  · rw [hd]
    simp only [hstep, reduceIte]
    rcases hfind : st.farmers.find?
        (fun f => f.name == (parse_name_address (pyStrip q)).1
               && f.address == (parse_name_address (pyStrip q)).2)
        with _ | farmer
    · exact ⟨_, _, by simp only [handle_step1, hfind]; rfl⟩
    · by_cases hsum : pyTruthyStr farmer.last_problem_summary = true
      · exact ⟨_, _, by simp only [handle_step1, hfind, hsum, if_true]; rfl⟩
      · have hsum2 : pyTruthyStr farmer.last_problem_summary = false := by
          simpa using hsum
        exact ⟨_, _, by simp only [handle_step1, hfind, hsum2,
          Bool.false_eq_true, if_false]; rfl⟩
  · rw [hd]
    simp only [hstep, reduceIte]
    rcases hfind : st.farmers.find?
        (fun f => f.name == (parse_name_address (pyStrip q)).1
               && f.address == (parse_name_address (pyStrip q)).2)
        with _ | farmer
    · left; simp [handle_step1, hfind, setSession]
    · by_cases hsum : pyTruthyStr farmer.last_problem_summary = true
      · right; simp [handle_step1, hfind, hsum, setSession]
      · have hsum2 : pyTruthyStr farmer.last_problem_summary = false := by
          simpa using hsum
        left; simp [handle_step1, hfind, hsum2, setSession]
  · intro hc
    have h2 : 2 ≤ (splitChar ',' (pyStrip q).toList).length :=
      (splitChar_two_le_length_iff ',' (pyStrip q).toList).mpr hc
    have hlen : ¬ ((pySplitComma (pyStrip q)).map
        (fun p => pyTitle (pyStrip p))).length < 2 := by
      simp only [List.length_map, pySplitComma]
      omega
    simp only [parse_parts, hlen, if_false]
  · intro hc
    have h2 : ¬ 2 ≤ (splitChar ',' (pyStrip q).toList).length :=
      fun hle => hc ((splitChar_two_le_length_iff ',' (pyStrip q).toList).mp hle)
    have hlen : ((pySplitComma (pyStrip q)).map
        (fun p => pyTitle (pyStrip p))).length < 2 := by
      simp only [List.length_map, pySplitComma]
      omega
    simp only [parse_parts, hlen, if_true]
  · intro n rest hparts
    simp only [parse_name_address, hparts]
    cases rest with
    | nil => simp
    | cons r rs => simp

/-- Witness for C6 at a concrete single-token input with no comma. -/
theorem C6_parsing_never_fails_witness :
    (∃ text ns, (handle_conversation (some "s1") "Ravi" fail_oracle
        step1_state).1 = TurnResult.reply text ns 200)
  ∧ (((handle_conversation (some "s1") "Ravi" fail_oracle
        step1_state).2.sessions "s1").map SessionData.step = some 2
     ∨ ((handle_conversation (some "s1") "Ravi" fail_oracle
        step1_state).2.sessions "s1").map SessionData.step = some 3)
  ∧ parse_parts (pyStrip "Ravi")
      = (pySplitWs (pyStrip "Ravi")).map (fun p => pyTitle (pyStrip p))
  ∧ parse_name_address (pyStrip "Ravi") = ("Ravi", "Unknown Address") := by
  have h := C6_parsing_never_fails step1_state "s1" "Ravi" fail_oracle
    step1_session (by decide) (by decide) (by simp [step1_state]) rfl
  refine ⟨h.1, h.2.1, h.2.2.2.1 (by decide), ?_⟩
  have h5 := h.2.2.2.2 "Ravi" [] (by decide)
  simpa using h5
